import Mathlib

/-!
Shallow embedding of `custom_components/mqtt_media_player/config_flow.py`
(the config flow of the mqtt_media_player Home Assistant integration).

Conventions of the embedding:
* JSON payloads are modelled already parsed: a message carries
  `Option JsonValue`, where `none` stands for a payload on which
  `json.loads` raises, `JsonValue.obj c` for a JSON object (a Python dict,
  modelled as an association list of string keys to string values — only
  string-valued fields are ever read by the flow), and `JsonValue.other b`
  for a JSON value that is not an object (list, string, number, ...), of
  which the flow can only observe its Python truthiness `b`.
* Python dicts keep insertion order; assigning an existing key keeps its
  position.  `dinsert` reproduces this.
* Host (Home Assistant) primitives are modelled by their documented
  semantics: `_abort_if_unique_id_configured` raises `AbortFlow` with
  reason `"already_configured"` when some configured entry's registered
  unique id equals the one set on the flow; `AbortFlow` derives from
  `Exception`, so a broad `except Exception` catches it.
* Exceptions are explicit: a function body that can raise returns an
  `Except` value or a `FlowResult.raised` outcome; `try/finally` becomes
  the action list carrying the unsubscribe on every path.
* `str.isalnum` is modelled over ASCII alphanumerics (`Char.isAlphanum`);
  the flow's claims do not probe non-ASCII names.
-/

/-- A JSON object, as the Python dict the flow reads string fields from. -/
abbrev ConfigData : Type := List (String × String)

/-- A parsed JSON payload: an object, or some non-object value of which
only Python truthiness is observable. -/
inductive JsonValue where
  | obj (c : ConfigData)
  | other (truthy : Bool)
deriving DecidableEq

/-- Python truthiness of a parsed JSON value (the empty dict and falsy
non-objects are falsy). -/
def JsonValue.isTruthy : JsonValue → Bool
  | .obj c => !c.isEmpty
  | .other b => b

/-- Python `dict.get(k)`: first binding of `k`, if any. -/
def cget (c : ConfigData) (k : String) : Option String :=
  (c.find? (fun p => p.1 = k)).map (fun p => p.2)

/-- An MQTT message as seen by a subscription callback: its topic string
and its payload (already run through `json.loads`, `none` on parse error). -/
structure Message where
  topic : String
  payload : Option JsonValue
deriving DecidableEq

/-- Python `str.split("/")` over the character list: split at every
`'/'`; the empty string yields `[""]`. -/
def splitSlash : List Char → List (List Char)
  | [] => [[]]
  | ch :: rest =>
    match splitSlash rest, ch with
    | r, '/' => [] :: r
    | [], _ => [[ch]]
    | h :: tl, _ => (ch :: h) :: tl

/-- Models `message.topic.split("/")[-2]`: the second-to-last `/`-separated
segment, `none` when the split has fewer than two parts (Python raises
`IndexError` there). -/
def topicMinus2 (t : String) : Option String :=
  match (splitSlash t.data).reverse with
  | _ :: dn :: _ => some ⟨dn⟩
  | _ => none

/-- One value of the flow's `_discovered_devices` dict. -/
structure DeviceInfo where
  name : String
  config : ConfigData
  unique_id : String
deriving DecidableEq

/-- The flow's `_discovered_devices`: a Python dict from device name to
device info, in insertion order. -/
abbrev DMap : Type := List (String × DeviceInfo)

/-- Models `list(d.keys())`. -/
def dkeys (d : DMap) : List String := d.map (fun p => p.1)

/-- Models `d[k]` as an option (`none` models Python `KeyError`). -/
def dfind (d : DMap) (k : String) : Option DeviceInfo :=
  (d.find? (fun p => p.1 = k)).map (fun p => p.2)

/-- Models `d[k] = v` with Python dict semantics: overwrite in place if `k` is
present, append otherwise. -/
def dinsert (d : DMap) (k : String) (v : DeviceInfo) : DMap :=
  if d.any (fun p => p.1 = k) then
    d.map (fun p => if p.1 = k then (k, v) else p)
  else
    d ++ [(k, v)]

/-- A configured entry as the flow observes it: its registered unique id
(the Home Assistant entry attribute checked by
`_abort_if_unique_id_configured`) and `entry.data.get("mqtt_config")`. -/
structure ConfigEntry where
  unique_id : Option String
  mqtt_config : Option ConfigData
deriving DecidableEq

/-- Models `entry.data.get("mqtt_config", \x7b\x7d).get("unique_id")`, the field
`_discover_devices` scans. -/
def entryConfigUid (e : ConfigEntry) : Option String :=
  cget (e.mqtt_config.getD []) "unique_id"

/-- The check made by `_abort_if_unique_id_configured`: some configured entry has
this registered unique id. -/
def uniqueIdRegistered (entries : List ConfigEntry) (uid : String) : Bool :=
  entries.any (fun e => e.unique_id = some uid)

/-- The scan in `_discover_devices` lines 255-259: some entry's stored
mqtt_config carries this unique id. -/
def configUidExists (entries : List ConfigEntry) (uid : String) : Bool :=
  entries.any (fun e => entryConfigUid e = some uid)

/-- Modelled from the spec: `DISCOVERY_TOPIC` from `const.py` (not under
`src/`) is "a fixed discovery topic"; its exact string is immaterial to
every claim. -/
def DISCOVERY_TOPIC : String := "mqtt_media_player/discovery"

/-- Modelled from the spec: `CONFIG_TOPIC_PATTERN.format(device_name)`
from `const.py` (not under `src/`) is "a per-device templated config
topic"; the exact template is immaterial to every claim. -/
def configTopic (device_name : String) : String :=
  "mqtt_media_player/" ++ device_name ++ "/config"

/-- Home Assistant constant `CONF_NAME`. -/
def CONF_NAME : String := "name"

/-- A bus interaction performed by the flow. -/
inductive BusAction where
  | subscribe (topic : String)
  | unsubscribe (topic : String)
deriving DecidableEq

/-- The outcome of one config-flow step. `raised` marks an exception
escaping the step function. -/
inductive FlowResult where
  | createEntry (title : String) (config : ConfigData)
  | showForm (stepId : String) (errors : List (String × String))
      (options : List (String × String))
      (placeholders : List (String × String))
  | abort (reason : String)
  | raised
deriving DecidableEq

def FlowResult.isCreateEntry : FlowResult → Bool
  | .createEntry _ _ => true
  | _ => false

def FlowResult.isAbort : FlowResult → Bool
  | .abort _ => true
  | _ => false

def FlowResult.isRaised : FlowResult → Bool
  | .raised => true
  | _ => false

/-- The environment of one subscription window: whether `async_subscribe`
succeeds, whether the `asyncio.sleep` wait completes normally (when false
it raises a generic `Exception`), and the messages delivered to the
callback during the window, in order. -/
structure WindowEnv where
  subscribeOk : Bool
  waitOk : Bool
  msgs : List Message

/-- Effect of `discovery_callback` over the whole window: each message whose payload
parses and whose topic has a second-to-last segment contributes
`(device_name, parsed_payload)` to `discovered_configs`; any failure
inside the callback skips just that message. -/
def collectDiscovery (msgs : List Message) : List (String × JsonValue) :=
  msgs.filterMap (fun m =>
    match m.payload with
    | none => none
    | some v => (topicMinus2 m.topic).map (fun dn => (dn, v)))

/-- The processing loop of `_discover_devices` (lines 249-266): fold the
collected configs into `_discovered_devices`, skipping devices whose
unique id is already stored in a configured entry's mqtt_config.  A
non-object config makes `config_data.get` raise `AttributeError`; the
error payload is the partially mutated dict at that point. -/
def processDiscovered (entries : List ConfigEntry) :
    DMap → List (String × JsonValue) → Except DMap DMap
  | d, [] => .ok d
  | d, (_, .other _) :: _ => .error d
  | d, (dn, .obj c) :: rest =>
    let uid := (cget c "unique_id").getD dn
    if configUidExists entries uid then
      processDiscovered entries d rest
    else
      processDiscovered entries
        (dinsert d dn ⟨(cget c "name").getD dn, c, uid⟩) rest

/-- The map a `processDiscovered` outcome leaves in
`self._discovered_devices` (mutation survives the exception). -/
def dmapOf : Except DMap DMap → DMap
  | .ok d => d
  | .error d => d

/-- Models `_discover_devices` (lines 219-272): subscribe to the discovery topic,
wait, process collected configs, unsubscribe in a `finally`.  Returns the
resulting `_discovered_devices` (`Except.error` when an exception escapes,
carrying the dict as mutated so far) and the bus actions performed. -/
def discover_devices (entries : List ConfigEntry) (d0 : DMap)
    (env : WindowEnv) : Except DMap DMap × List BusAction :=
  if env.subscribeOk then
    let acts := [BusAction.subscribe DISCOVERY_TOPIC,
                 BusAction.unsubscribe DISCOVERY_TOPIC]
    if env.waitOk then
      (processDiscovered entries d0 (collectDiscovery env.msgs), acts)
    else
      (.error d0, acts)
  else
    (.error d0, [])

/-- Effect of `config_callback` over the whole fetch window: `received_config` ends
as the last successfully parsed payload (parse failures keep the previous
value). -/
def lastParsed (msgs : List Message) : Option JsonValue :=
  msgs.foldl (fun acc m =>
    match m.payload with
    | some v => some v
    | none => acc) none

/-- Models `_fetch_mqtt_config` (lines 274-315): subscribe to the per-device
config topic, wait, validate the received config, unsubscribe in a
`finally`.  `schema` models `MQTT_CONFIG_SCHEMA` from `const.py` (not
under `src/`; the spec leaves its recognized keys unspecified), raising
`vol.Invalid` as `Except.error`.  Result is `Except.error` only when
`async_subscribe` itself raises (before the `try`); every failure inside
the `try` is caught and becomes `none`.  A falsy received value
(e.g. `\x7b\x7d`) is treated as no config by `if received_config:`. -/
def fetch_mqtt_config (device_name : String)
    (schema : JsonValue → Except Unit ConfigData)
    (env : WindowEnv) : Except Unit (Option ConfigData) × List BusAction :=
  if env.subscribeOk then
    let acts := [BusAction.subscribe (configTopic device_name),
                 BusAction.unsubscribe (configTopic device_name)]
    if env.waitOk then
      match lastParsed env.msgs with
      | none => (.ok none, acts)
      | some v =>
        if v.isTruthy then
          match schema v with
          | .ok validated => (.ok (some validated), acts)
          | .error _ => (.ok none, acts)
        else
          (.ok none, acts)
    else
      (.ok none, acts)
  else
    (.error (), [])

/-- Models `async_step_discovered_device` (lines 66-84): reads
`list(self._discovered_devices.keys())[0]` — the first key — in both
branches; with an empty dict the indexing raises `IndexError`, uncaught
in this step. -/
def async_step_discovered_device (d : DMap) (input : Option Unit) :
    FlowResult :=
  match input with
  | some _ =>
    match dkeys d with
    | [] => .raised
    | k :: _ =>
      match dfind d k with
      | none => .raised
      | some info => .createEntry info.name info.config
  | none =>
    match dkeys d with
    | [] => .raised
    | k :: _ =>
      match dfind d k with
      | none => .raised
      | some info =>
        .showForm "discovered_device" [] [] [("device_name", info.name)]

/-- Models `async_step_mqtt` (lines 37-64): parse the pushed payload, derive the
device name from the topic, dedup by unique id, store the device and show
the confirmation form; the broad `except Exception` turns every failure —
including the `AbortFlow` raised by `_abort_if_unique_id_configured` —
into `abort(reason="discovery_error")`. -/
def async_step_mqtt (entries : List ConfigEntry) (d : DMap)
    (info : Message) : DMap × FlowResult :=
  match info.payload, topicMinus2 info.topic with
  | none, _ => (d, .abort "discovery_error")
  | some _, none => (d, .abort "discovery_error")
  | some (.other _), some _ => (d, .abort "discovery_error")
  | some (.obj c), some dn =>
    let uid := (cget c "unique_id").getD dn
    if uniqueIdRegistered entries uid then
      (d, .abort "discovery_error")
    else
      let d' := dinsert d dn ⟨(cget c "name").getD dn, c, uid⟩
      let r := async_step_discovered_device d' none
      (d', if r.isRaised then .abort "discovery_error" else r)

/-- The dropdown options built in lines 138-149: one option per
discovered device, labelled `f"...name... (...device_name...)"`, plus the
manual entry. -/
def deviceOptions (d : DMap) : List (String × String) :=
  d.map (fun p => (p.1, p.2.name ++ " (" ++ p.1 ++ ")")) ++
    [("manual", "Manual configuration")]

/-- Models `async_step_discovery` (lines 112-178).  With user input: the manual
sentinel goes to the manual form; a device selection looks the device up
(`KeyError` is uncaught here), runs the unique-id dedup — whose
`AbortFlow` propagates, aborting with `"already_configured"` — and
creates the entry.  Without input: run `_discover_devices`; an empty
result falls through to the manual form; failure shows the discovery form
with the `discovery_failed` error and only the manual option. -/
def async_step_discovery_step (entries : List ConfigEntry) (d : DMap)
    (input : Option String) (env : WindowEnv) :
    DMap × FlowResult × List BusAction :=
  match input with
  | some dev =>
    if dev = "manual" then
      (d, .showForm "manual" [] [] [], [])
    else
      match dfind d dev with
      | none => (d, .raised, [])
      | some info =>
        if uniqueIdRegistered entries info.unique_id then
          (d, .abort "already_configured", [])
        else
          (d, .createEntry info.name info.config, [])
  | none =>
    match discover_devices entries d env with
    | (.ok d', acts) =>
      if d'.isEmpty then
        (d', .showForm "manual" [] [] [], acts)
      else
        (d', .showForm "discovery" [] (deviceOptions d')
          [("device_count", toString d'.length)], acts)
    | (.error d', acts) =>
      (d', .showForm "discovery" [("base", "discovery_failed")]
        [("manual", "Manual configuration")] [], acts)

/-- Models `device_name.replace("_", "").replace("-", "")`. -/
def pyStripUnderscoreHyphen (s : String) : String :=
  ⟨s.data.filter (fun ch => ch != '_' && ch != '-')⟩

/-- Python `str.isalnum()` (ASCII fragment): nonempty and all characters
alphanumeric. -/
def pyIsAlnum (s : String) : Bool :=
  !s.isEmpty && s.data.all Char.isAlphanum

/-- The name validation of line 189. -/
def validDeviceName (s : String) : Bool :=
  pyIsAlnum (pyStripUnderscoreHyphen s)

/-- Models `async_step_manual` (lines 180-217): an invalid name is rejected with
`invalid_device_name` before any bus interaction; otherwise the config is
fetched and line 194 re-tests its Python truthiness (`if mqtt_config:`) —
`None` and the falsy empty dict mean the `device_not_found` form error, a
non-empty config means the unique-id dedup and entry creation.  The broad
`except Exception` turns any exception — a failing `async_subscribe` and
also the dedup's `AbortFlow` — into the form with the `"unknown"` base
error, so a duplicate unique id does not abort here. -/
def async_step_manual_step (entries : List ConfigEntry)
    (input : Option String) (schema : JsonValue → Except Unit ConfigData)
    (env : WindowEnv) : FlowResult × List BusAction :=
  match input with
  | none => (.showForm "manual" [] [] [], [])
  | some device_name =>
    if validDeviceName device_name then
      match fetch_mqtt_config device_name schema env with
      | (.error _, acts) => (.showForm "manual" [("base", "unknown")] [] [], acts)
      | (.ok none, acts) =>
        (.showForm "manual" [(CONF_NAME, "device_not_found")] [] [], acts)
      | (.ok (some cfg), acts) =>
        if cfg.isEmpty then
          (.showForm "manual" [(CONF_NAME, "device_not_found")] [] [], acts)
        else
          let uid := (cget cfg "unique_id").getD device_name
          if uniqueIdRegistered entries uid then
            (.showForm "manual" [("base", "unknown")] [] [], acts)
          else
            (.createEntry ((cget cfg "name").getD device_name) cfg, acts)
    else
      (.showForm "manual" [(CONF_NAME, "invalid_device_name")] [] [], [])

/-! ## Helper lemmas -/

/-- The bus actions of `_discover_devices`: when the subscribe succeeds,
exactly one subscribe followed by one unsubscribe, on every path. -/
theorem discover_devices_acts (entries : List ConfigEntry) (d0 : DMap)
    (env : WindowEnv) :
    (discover_devices entries d0 env).2 =
      if env.subscribeOk then
        [BusAction.subscribe DISCOVERY_TOPIC,
         BusAction.unsubscribe DISCOVERY_TOPIC]
      else [] := by
  unfold discover_devices
  cases env.subscribeOk <;> cases env.waitOk <;> simp

/-- The bus actions of `_fetch_mqtt_config`: when the subscribe succeeds,
exactly one subscribe followed by one unsubscribe, on every path. -/
theorem fetch_mqtt_config_acts (device_name : String)
    (schema : JsonValue → Except Unit ConfigData) (env : WindowEnv) :
    (fetch_mqtt_config device_name schema env).2 =
      if env.subscribeOk then
        [BusAction.subscribe (configTopic device_name),
         BusAction.unsubscribe (configTopic device_name)]
      else [] := by
  unfold fetch_mqtt_config
  cases env.subscribeOk
  · simp
  · cases env.waitOk
    · simp
    · simp only [if_true]
      cases hlp : lastParsed env.msgs
      · simp
      · rename_i v
        cases hv : v.isTruthy
        · simp [hv]
        · cases hs : schema v <;> simp [hv, hs]

/-! ## Claim theorems -/

/-- Claim C2: every execution of `_discover_devices` and of
`_fetch_mqtt_config` in which the subscribe succeeds performs exactly one
subscribe, and the matching unsubscribe runs on every exit path — the
wait failing, a collected payload making processing raise, validation
failing — always as the final action. -/
theorem c2_subscribe_unsubscribe_balanced (entries : List ConfigEntry)
    (d0 : DMap) (denv : WindowEnv) (device_name : String)
    (schema : JsonValue → Except Unit ConfigData) (fenv : WindowEnv)
    (hd : denv.subscribeOk = true) (hf : fenv.subscribeOk = true) :
    (discover_devices entries d0 denv).2 =
      [BusAction.subscribe DISCOVERY_TOPIC,
       BusAction.unsubscribe DISCOVERY_TOPIC] ∧
    (fetch_mqtt_config device_name schema fenv).2 =
      [BusAction.subscribe (configTopic device_name),
       BusAction.unsubscribe (configTopic device_name)] := by
  rw [discover_devices_acts, fetch_mqtt_config_acts, hd, hf]
  exact ⟨rfl, rfl⟩

/-- Witness for C2 at a window whose wait raises (discovery) and a window
whose payload fails validation (fetch): both still unsubscribe once. -/
theorem c2_subscribe_unsubscribe_balanced_witness :
    (discover_devices [] [] ⟨true, false, []⟩).2 =
      [BusAction.subscribe DISCOVERY_TOPIC,
       BusAction.unsubscribe DISCOVERY_TOPIC] ∧
    (fetch_mqtt_config "dev" (fun _ => .error ())
        ⟨true, true, [⟨"m/dev/config", some (.obj [("a", "b")])⟩]⟩).2 =
      [BusAction.subscribe (configTopic "dev"),
       BusAction.unsubscribe (configTopic "dev")] :=
  c2_subscribe_unsubscribe_balanced [] [] ⟨true, false, []⟩ "dev"
    (fun _ => .error ()) ⟨true, true, [⟨"m/dev/config", some (.obj [("a", "b")])⟩]⟩
    rfl rfl

/-- Claim C3: when `_discover_devices` returns with an empty
discovered-devices map, the discovery step shows no selection form and
falls through to the manual step's form. -/
theorem c3_empty_discovery_falls_to_manual (entries : List ConfigEntry)
    (d0 : DMap) (env : WindowEnv)
    (h : (discover_devices entries d0 env).1 = .ok []) :
    async_step_discovery_step entries d0 none env =
      ([], FlowResult.showForm "manual" [] [] [],
        (discover_devices entries d0 env).2) := by
  unfold async_step_discovery_step
  rcases hd : discover_devices entries d0 env with ⟨r, acts⟩
  rw [hd] at h
  simp only at h
  subst h
  simp

/-- Witness for C3: an empty window discovers nothing and lands on the
manual form. -/
theorem c3_empty_discovery_falls_to_manual_witness :
    async_step_discovery_step [] [] none ⟨true, true, []⟩ =
      ([], FlowResult.showForm "manual" [] [] [],
        [BusAction.subscribe DISCOVERY_TOPIC,
         BusAction.unsubscribe DISCOVERY_TOPIC]) :=
  c3_empty_discovery_falls_to_manual [] [] ⟨true, true, []⟩ rfl

/-- Claim C9: `async_step_discovered_device` always reads the first key of
`_discovered_devices`, whatever else the dict holds, and raises
(`IndexError` on the empty key list) exactly when the dict is empty —
never a form or an abort there. -/
theorem c9_discovered_device_first_key (d : DMap) (input : Option Unit) :
    async_step_discovered_device d input =
      (match d, input with
       | [], _ => FlowResult.raised
       | (_, info) :: _, some _ =>
         FlowResult.createEntry info.name info.config
       | (_, info) :: _, none =>
         FlowResult.showForm "discovered_device" [] []
           [("device_name", info.name)]) ∧
    (async_step_discovered_device d input = FlowResult.raised ↔ d = []) := by
  cases d with
  | nil => cases input <;> exact ⟨rfl, by simp [async_step_discovered_device, dkeys]⟩
  | cons p rest =>
    obtain ⟨k, info⟩ := p
    have hfind : dfind ((k, info) :: rest) k = some info := by
      simp [dfind, List.find?_cons]
    cases input <;>
      simp [async_step_discovered_device, dkeys, hfind]

/-- Claim C10: a malformed payload arriving during the discovery window is
skipped: the whole of `_discover_devices` — resulting map and bus actions
alike — is the same as if the message had never arrived, so the window
neither ends early nor raises because of it. -/
theorem c10_malformed_payload_skipped (entries : List ConfigEntry)
    (d0 : DMap) (subOk waitOk : Bool) (pre post : List Message)
    (m : Message) (hm : m.payload = none) :
    discover_devices entries d0 ⟨subOk, waitOk, pre ++ m :: post⟩ =
      discover_devices entries d0 ⟨subOk, waitOk, pre ++ post⟩ := by
  have hc : collectDiscovery (pre ++ m :: post) =
      collectDiscovery (pre ++ post) := by
    unfold collectDiscovery
    rw [List.filterMap_append, List.filterMap_append, List.filterMap_cons]
    simp [hm]
  unfold discover_devices
  simp only [hc]

/-- Witness for C10: a window with one malformed payload between two
well-formed ones equals the window without it. -/
theorem c10_malformed_payload_skipped_witness :
    discover_devices [] [] ⟨true, true,
        [⟨"m/d1/c", some (.obj [("name", "A")])⟩, ⟨"m/bad/c", none⟩,
         ⟨"m/d2/c", some (.obj [("name", "B")])⟩]⟩ =
      discover_devices [] [] ⟨true, true,
        [⟨"m/d1/c", some (.obj [("name", "A")])⟩,
         ⟨"m/d2/c", some (.obj [("name", "B")])⟩]⟩ :=
  c10_malformed_payload_skipped [] [] true true
    [⟨"m/d1/c", some (.obj [("name", "A")])⟩] [⟨"m/d2/c", some (.obj [("name", "B")])⟩]
    ⟨"m/bad/c", none⟩ rfl

/-- Claim C5: a manual-entry name containing a character that is neither
alphanumeric nor underscore nor hyphen is rejected with the
`invalid_device_name` form error, before any bus interaction and without
creating an entry. -/
theorem c5_invalid_name_rejected (entries : List ConfigEntry)
    (name : String) (schema : JsonValue → Except Unit ConfigData)
    (env : WindowEnv) (ch : Char) (hmem : ch ∈ name.data)
    (halnum : ch.isAlphanum = false) (hu : ch ≠ '_') (hh : ch ≠ '-') :
    async_step_manual_step entries (some name) schema env =
      (FlowResult.showForm "manual" [(CONF_NAME, "invalid_device_name")] [] [],
       []) := by
  have hkeep : (ch != '_' && ch != '-') = true := by
    simp [bne_iff_ne, hu, hh]
  have hmem' : ch ∈ (pyStripUnderscoreHyphen name).data := by
    unfold pyStripUnderscoreHyphen
    exact List.mem_filter.mpr ⟨hmem, hkeep⟩
  have hall : (pyStripUnderscoreHyphen name).data.all Char.isAlphanum = false := by
    cases hcase : (pyStripUnderscoreHyphen name).data.all Char.isAlphanum
    · rfl
    · have := List.all_eq_true.mp hcase ch hmem'
      rw [halnum] at this
      exact absurd this (by simp)
  have hvalid : validDeviceName name = false := by
    unfold validDeviceName pyIsAlnum
    rw [hall, Bool.and_false]
  simp [async_step_manual_step, hvalid]

/-- Witness for C5: a name with a space is rejected with no bus action. -/
theorem c5_invalid_name_rejected_witness :
    async_step_manual_step [] (some "dev 1") (fun _ => .error ())
        ⟨true, true, []⟩ =
      (FlowResult.showForm "manual" [(CONF_NAME, "invalid_device_name")] [] [],
       []) :=
  c5_invalid_name_rejected [] "dev 1" (fun _ => .error ()) ⟨true, true, []⟩
    (Char.ofNat 32) (by decide) (by decide) (by decide) (by decide)

/-- Claim C6: when no config message arrives within the fetch window,
`_fetch_mqtt_config` returns no config, and the manual step surfaces the
`device_not_found` form error; the single subscribe/unsubscribe pair shows
no retry is attempted. -/
theorem c6_no_response_device_not_found (entries : List ConfigEntry)
    (name : String) (schema : JsonValue → Except Unit ConfigData)
    (env : WindowEnv) (h1 : env.subscribeOk = true) (h2 : env.waitOk = true)
    (h3 : env.msgs = []) (h4 : validDeviceName name = true) :
    fetch_mqtt_config name schema env =
      (.ok none, [BusAction.subscribe (configTopic name),
                  BusAction.unsubscribe (configTopic name)]) ∧
    async_step_manual_step entries (some name) schema env =
      (FlowResult.showForm "manual" [(CONF_NAME, "device_not_found")] [] [],
       [BusAction.subscribe (configTopic name),
        BusAction.unsubscribe (configTopic name)]) := by
  have hf : fetch_mqtt_config name schema env =
      (.ok none, [BusAction.subscribe (configTopic name),
                  BusAction.unsubscribe (configTopic name)]) := by
    unfold fetch_mqtt_config
    rw [h1, h2, h3]
    rfl
  refine ⟨hf, ?_⟩
  simp [async_step_manual_step, h4, hf]

/-- Witness for C6: an empty fetch window on a valid name yields the
`device_not_found` form. -/
theorem c6_no_response_device_not_found_witness :
    fetch_mqtt_config "dev" (fun _ => .error ()) ⟨true, true, []⟩ =
      (.ok none, [BusAction.subscribe (configTopic "dev"),
                  BusAction.unsubscribe (configTopic "dev")]) ∧
    async_step_manual_step [] (some "dev") (fun _ => .error ())
        ⟨true, true, []⟩ =
      (FlowResult.showForm "manual" [(CONF_NAME, "device_not_found")] [] [],
       [BusAction.subscribe (configTopic "dev"),
        BusAction.unsubscribe (configTopic "dev")]) :=
  c6_no_response_device_not_found [] "dev" (fun _ => .error ())
    ⟨true, true, []⟩ rfl rfl rfl (by decide)

/-- Claim C7: each enumerated failure is caught and converted, never
propagated: a malformed discovery push aborts with `discovery_error`; a
missing config and a schema-validation failure surface the
`device_not_found` form error; a failing subscribe surfaces the `unknown`
form error in the manual step and the `discovery_failed` form error in
the discovery step. -/
theorem c7_failures_converted (entries : List ConfigEntry) (d : DMap)
    (t name : String) (schema : JsonValue → Except Unit ConfigData)
    (v : JsonValue) (fenvA fenvB fenvC denv : WindowEnv)
    (hname : validDeviceName name = true)
    (hA1 : fenvA.subscribeOk = true) (hA2 : fenvA.waitOk = true)
    (hA3 : fenvA.msgs = [])
    (hB1 : fenvB.subscribeOk = true) (hB2 : fenvB.waitOk = true)
    (hB3 : lastParsed fenvB.msgs = some v) (hB4 : v.isTruthy = true)
    (hB5 : schema v = .error ())
    (hC : fenvC.subscribeOk = false) (hD : denv.subscribeOk = false) :
    (async_step_mqtt entries d ⟨t, none⟩).2 =
      FlowResult.abort "discovery_error" ∧
    (async_step_manual_step entries (some name) schema fenvA).1 =
      FlowResult.showForm "manual" [(CONF_NAME, "device_not_found")] [] [] ∧
    (async_step_manual_step entries (some name) schema fenvB).1 =
      FlowResult.showForm "manual" [(CONF_NAME, "device_not_found")] [] [] ∧
    (async_step_manual_step entries (some name) schema fenvC).1 =
      FlowResult.showForm "manual" [("base", "unknown")] [] [] ∧
    (async_step_discovery_step entries d none denv).2.1 =
      FlowResult.showForm "discovery" [("base", "discovery_failed")]
        [("manual", "Manual configuration")] [] := by
  refine ⟨rfl, ?_, ?_, ?_, ?_⟩
  · have hf : fetch_mqtt_config name schema fenvA = (.ok none,
        [BusAction.subscribe (configTopic name),
         BusAction.unsubscribe (configTopic name)]) := by
      unfold fetch_mqtt_config
      rw [hA1, hA2, hA3]
      rfl
    simp [async_step_manual_step, hname, hf]
  · have hf : (fetch_mqtt_config name schema fenvB).1 = .ok none := by
      unfold fetch_mqtt_config
      rw [hB1, hB2, hB3]
      simp [hB4, hB5]
    rcases hfe : fetch_mqtt_config name schema fenvB with ⟨r, acts⟩
    rw [hfe] at hf
    simp only at hf
    subst hf
    simp [async_step_manual_step, hname, hfe]
  · have hf : fetch_mqtt_config name schema fenvC = (.error (), []) := by
      unfold fetch_mqtt_config
      rw [hC]
      rfl
    simp [async_step_manual_step, hname, hf]
  · have hd : discover_devices entries d denv = (.error d, []) := by
      unfold discover_devices
      rw [hD]
      rfl
    simp [async_step_discovery_step, hd]

/-- Witness for C7 at concrete environments exhibiting all four failure
kinds. -/
theorem c7_failures_converted_witness :
    (async_step_mqtt [] [] ⟨"m/d/c", none⟩).2 =
      FlowResult.abort "discovery_error" ∧
    (async_step_manual_step [] (some "dev") (fun _ => .error ())
        ⟨true, true, []⟩).1 =
      FlowResult.showForm "manual" [(CONF_NAME, "device_not_found")] [] [] ∧
    (async_step_manual_step [] (some "dev") (fun _ => .error ())
        ⟨true, true, [⟨"m/dev/config", some (.obj [("a", "b")])⟩]⟩).1 =
      FlowResult.showForm "manual" [(CONF_NAME, "device_not_found")] [] [] ∧
    (async_step_manual_step [] (some "dev") (fun _ => .error ())
        ⟨false, true, []⟩).1 =
      FlowResult.showForm "manual" [("base", "unknown")] [] [] ∧
    (async_step_discovery_step [] [] none ⟨false, true, []⟩).2.1 =
      FlowResult.showForm "discovery" [("base", "discovery_failed")]
        [("manual", "Manual configuration")] [] :=
  c7_failures_converted [] [] "m/d/c" "dev" (fun _ => .error ())
    (.obj [("a", "b")]) ⟨true, true, []⟩
    ⟨true, true, [⟨"m/dev/config", some (.obj [("a", "b")])⟩]⟩
    ⟨false, true, []⟩ ⟨false, true, []⟩
    (by decide) rfl rfl rfl rfl rfl rfl (by decide) rfl rfl rfl

/-- Counterexample to claim C4: the option label for a payload with
display name "Player" on device "d1" is "Player (d1)", which is not the
configured display name "Player". -/
theorem c4_option_label_counterexample :
    (async_step_discovery_step [] [] none
        ⟨true, true, [⟨"players/d1/config",
            some (.obj [("name", "Player"), ("unique_id", "u1")])⟩]⟩).2.1 =
      FlowResult.showForm "discovery" []
        [("d1", "Player (d1)"), ("manual", "Manual configuration")]
        [("device_count", "1")] ∧
    "Player (d1)" ≠ "Player" :=
  ⟨by decide, by decide⟩

/-- Claim C4 as amended: the option label is the configured display name
(the payload's "name" field, falling back to the device name when absent)
followed by the device name in parentheses. -/
theorem c4_option_label_amended (entries : List ConfigEntry)
    (env : WindowEnv) (t : String) (c : ConfigData) (dn : String)
    (h1 : env.subscribeOk = true) (h2 : env.waitOk = true)
    (h3 : env.msgs = [⟨t, some (.obj c)⟩]) (h4 : topicMinus2 t = some dn)
    (h5 : configUidExists entries ((cget c "unique_id").getD dn) = false) :
    async_step_discovery_step entries [] none env =
      ([(dn, ⟨(cget c "name").getD dn, c, (cget c "unique_id").getD dn⟩)],
       FlowResult.showForm "discovery" []
         [(dn, ((cget c "name").getD dn) ++ " (" ++ dn ++ ")"),
          ("manual", "Manual configuration")]
         [("device_count", "1")],
       [BusAction.subscribe DISCOVERY_TOPIC,
        BusAction.unsubscribe DISCOVERY_TOPIC]) := by
  have hcol : collectDiscovery env.msgs = [(dn, JsonValue.obj c)] := by
    rw [h3]
    unfold collectDiscovery
    simp [h4]
  have hdisc : discover_devices entries [] env =
      (.ok [(dn, ⟨(cget c "name").getD dn, c, (cget c "unique_id").getD dn⟩)],
       [BusAction.subscribe DISCOVERY_TOPIC,
        BusAction.unsubscribe DISCOVERY_TOPIC]) := by
    unfold discover_devices
    rw [h1, h2, hcol]
    simp [processDiscovered, h5, dinsert]
  simp [async_step_discovery_step, hdisc, deviceOptions]
  rfl

/-- Witness for the amended C4: with the "name" field present the label
is name and device name; the map records both. -/
theorem c4_option_label_amended_witness :
    async_step_discovery_step [] [] none
        ⟨true, true, [⟨"players/d1/config",
            some (.obj [("name", "Player"), ("unique_id", "u1")])⟩]⟩ =
      ([("d1", ⟨"Player", [("name", "Player"), ("unique_id", "u1")], "u1"⟩)],
       FlowResult.showForm "discovery" []
         [("d1", "Player (d1)"), ("manual", "Manual configuration")]
         [("device_count", "1")],
       [BusAction.subscribe DISCOVERY_TOPIC,
        BusAction.unsubscribe DISCOVERY_TOPIC]) :=
  c4_option_label_amended [] ⟨true, true, [⟨"players/d1/config",
      some (.obj [("name", "Player"), ("unique_id", "u1")])⟩]⟩
    "players/d1/config" [("name", "Player"), ("unique_id", "u1")] "d1"
    rfl rfl rfl (by decide) rfl

/-- Keys after a Python-dict assignment: unchanged when the key is
present, appended otherwise. -/
theorem dkeys_dinsert (d : DMap) (k : String) (v : DeviceInfo) :
    dkeys (dinsert d k v) =
      if k ∈ dkeys d then dkeys d else dkeys d ++ [k] := by
  unfold dinsert
  have hmem : d.any (fun p => p.1 = k) = true ↔ k ∈ dkeys d := by
    simp only [List.any_eq_true, decide_eq_true_eq, dkeys, List.mem_map]
  by_cases h : k ∈ dkeys d
  · rw [if_pos (hmem.mpr h), if_pos h]
    unfold dkeys
    rw [List.map_map]
    apply List.map_congr_left
    intro p _
    by_cases hp : p.1 = k
    · simp [hp]
    · simp [hp]
  · rw [if_neg (fun hc => h (hmem.mp hc)), if_neg h]
    simp [dkeys]

/-- A Python-dict assignment keeps the key list duplicate-free. -/
theorem nodup_dkeys_dinsert (d : DMap) (k : String) (v : DeviceInfo)
    (h : (dkeys d).Nodup) : (dkeys (dinsert d k v)).Nodup := by
  rw [dkeys_dinsert]
  by_cases hk : k ∈ dkeys d
  · rwa [if_pos hk]
  · rw [if_neg hk]
    rw [List.nodup_append]
    exact ⟨h, List.nodup_singleton k, by
      intro a ha hb
      rw [List.mem_singleton] at hb
      exact hk (hb ▸ ha)⟩

/-- The processing loop keeps the device-name keys duplicate-free, in the
normal and in the raising outcome alike. -/
theorem nodup_processDiscovered (entries : List ConfigEntry)
    (configs : List (String × JsonValue)) (d : DMap)
    (h : (dkeys d).Nodup) :
    (dkeys (dmapOf (processDiscovered entries d configs))).Nodup := by
  induction configs generalizing d with
  | nil => simpa [processDiscovered, dmapOf]
  | cons hdc tl ih =>
    obtain ⟨dn, v⟩ := hdc
    cases v with
    | other b => simpa [processDiscovered, dmapOf]
    | obj c =>
      unfold processDiscovered
      by_cases hex : configUidExists entries ((cget c "unique_id").getD dn)
      · rw [if_pos hex]
        exact ih d h
      · rw [if_neg hex]
        exact ih _ (nodup_dkeys_dinsert d dn _ h)

/-- Counterexample to claim C8: two payloads in one window carrying the
same unique identifier "u" under different device names produce two
discovered devices, both with unique id "u" — no deduplication by the
identifier field happens. -/
theorem c8_dedup_counterexample :
    dmapOf (discover_devices [] []
        ⟨true, true, [⟨"p/d1/c", some (.obj [("unique_id", "u")])⟩,
                      ⟨"p/d2/c", some (.obj [("unique_id", "u")])⟩]⟩).1 =
      [("d1", ⟨"d1", [("unique_id", "u")], "u"⟩),
       ("d2", ⟨"d2", [("unique_id", "u")], "u"⟩)] ∧
    (dmapOf (discover_devices [] []
        ⟨true, true, [⟨"p/d1/c", some (.obj [("unique_id", "u")])⟩,
                      ⟨"p/d2/c", some (.obj [("unique_id", "u")])⟩]⟩).1).length = 2 ∧
    (dmapOf (discover_devices [] []
        ⟨true, true, [⟨"p/d1/c", some (.obj [("unique_id", "u")])⟩,
                      ⟨"p/d2/c", some (.obj [("unique_id", "u")])⟩]⟩).1).map
        (fun p => p.2.unique_id) = ["u", "u"] :=
  ⟨by decide, by decide, by decide⟩

/-- Claim C8 as amended: the discovery routine deduplicates the collected
payloads by device name (the topic path segment used as the dict key),
not by the unique identifier field: starting from a duplicate-free map,
for every two collected payloads with the same device name at most one
discovered device results, while payloads sharing a unique id under
different device names each produce a device.  (Payloads whose unique id
matches an already-configured entry's stored config are dropped.) -/
theorem c8_dedup_by_device_name (entries : List ConfigEntry) (d0 : DMap)
    (env : WindowEnv) (h : (dkeys d0).Nodup) :
    (dkeys (dmapOf (discover_devices entries d0 env).1)).Nodup := by
  unfold discover_devices
  cases hs : env.subscribeOk
  · simpa [dmapOf]
  · cases hw : env.waitOk
    · simpa [dmapOf]
    · simpa using nodup_processDiscovered entries (collectDiscovery env.msgs) d0 h

/-- Witness for the amended C8: the counterexample window yields the two
distinct device names "d1" and "d2", duplicate-free. -/
theorem c8_dedup_by_device_name_witness :
    (dkeys (dmapOf (discover_devices [] []
        ⟨true, true, [⟨"p/d1/c", some (.obj [("unique_id", "u")])⟩,
                      ⟨"p/d2/c", some (.obj [("unique_id", "u")])⟩]⟩).1)).Nodup :=
  c8_dedup_by_device_name [] []
    ⟨true, true, [⟨"p/d1/c", some (.obj [("unique_id", "u")])⟩,
                  ⟨"p/d2/c", some (.obj [("unique_id", "u")])⟩]⟩
    List.nodup_nil

/-- Counterexample to claim C1: on the manual-entry path with a fetched
config whose unique id "u" is already configured, the flow does not
abort — the broad `except Exception` catches the dedup's `AbortFlow` and
returns the manual form with the `"unknown"` base error.  (No entry is
created, but the claimed abort does not happen.) -/
theorem c1_manual_duplicate_counterexample :
    uniqueIdRegistered [⟨some "u", none⟩] "u" = true ∧
    (async_step_manual_step [⟨some "u", none⟩] (some "dev")
        (fun v => match v with | .obj c => .ok c | .other _ => .error ())
        ⟨true, true, [⟨"mm/dev/config", some (.obj [("unique_id", "u")])⟩]⟩).1 =
      FlowResult.showForm "manual" [("base", "unknown")] [] [] ∧
    (async_step_manual_step [⟨some "u", none⟩] (some "dev")
        (fun v => match v with | .obj c => .ok c | .other _ => .error ())
        ⟨true, true, [⟨"mm/dev/config", some (.obj [("unique_id", "u")])⟩]⟩).1.isAbort
      = false :=
  ⟨by decide, by decide, by decide⟩

/-- Claim C1 as amended: when an entry with the new device's unique id is
already configured, no completion path creates an entry; the
discovery-selection path aborts with `already_configured`, the
MQTT-discovery path aborts with `discovery_error` (its broad except
re-labels the dedup abort), and the manual path — once a truthy
(non-empty) config was fetched, the only case in which line 194 lets it
reach the dedup — returns the form with the `"unknown"` base error
instead of aborting. -/
theorem c1_unique_id_guard (entries : List ConfigEntry) (d : DMap)
    (denv : WindowEnv) (dev : String) (info : DeviceInfo)
    (t : String) (c : ConfigData) (dn : String)
    (name : String) (schema : JsonValue → Except Unit ConfigData)
    (fenv : WindowEnv) (cfg : ConfigData)
    (h1 : dev ≠ "manual") (h2 : dfind d dev = some info)
    (h3 : uniqueIdRegistered entries info.unique_id = true)
    (h4 : topicMinus2 t = some dn)
    (h5 : uniqueIdRegistered entries ((cget c "unique_id").getD dn) = true)
    (h6 : validDeviceName name = true)
    (h7 : (fetch_mqtt_config name schema fenv).1 = .ok (some cfg))
    (h8 : uniqueIdRegistered entries ((cget cfg "unique_id").getD name) = true)
    (h9 : cfg.isEmpty = false) :
    async_step_discovery_step entries d (some dev) denv =
      (d, FlowResult.abort "already_configured", []) ∧
    async_step_mqtt entries d ⟨t, some (.obj c)⟩ =
      (d, FlowResult.abort "discovery_error") ∧
    (async_step_manual_step entries (some name) schema fenv).1 =
      FlowResult.showForm "manual" [("base", "unknown")] [] [] ∧
    (async_step_discovery_step entries d (some dev) denv).2.1.isCreateEntry
      = false ∧
    (async_step_mqtt entries d ⟨t, some (.obj c)⟩).2.isCreateEntry = false ∧
    (async_step_manual_step entries (some name) schema fenv).1.isCreateEntry
      = false := by
  have hsel : async_step_discovery_step entries d (some dev) denv =
      (d, FlowResult.abort "already_configured", []) := by
    simp [async_step_discovery_step, h1, h2, h3]
  have hmq : async_step_mqtt entries d ⟨t, some (.obj c)⟩ =
      (d, FlowResult.abort "discovery_error") := by
    simp [async_step_mqtt, h4, h5]
  have hman : (async_step_manual_step entries (some name) schema fenv).1 =
      FlowResult.showForm "manual" [("base", "unknown")] [] [] := by
    rcases hfe : fetch_mqtt_config name schema fenv with ⟨r, acts⟩
    rw [hfe] at h7
    simp only at h7
    subst h7
    simp [async_step_manual_step, h6, hfe, h8, h9]
  refine ⟨hsel, hmq, hman, ?_, ?_, ?_⟩
  · rw [hsel]
    rfl
  · rw [hmq]
    rfl
  · rw [hman]
    rfl

/-- Witness for the amended C1: all three paths, at a concrete duplicate
unique id "u". -/
theorem c1_unique_id_guard_witness :
    async_step_discovery_step [⟨some "u", none⟩]
        [("dev", ⟨"Dev", [("unique_id", "u")], "u"⟩)] (some "dev")
        ⟨true, true, []⟩ =
      ([("dev", ⟨"Dev", [("unique_id", "u")], "u"⟩)],
       FlowResult.abort "already_configured", []) ∧
    async_step_mqtt [⟨some "u", none⟩]
        [("dev", ⟨"Dev", [("unique_id", "u")], "u"⟩)]
        ⟨"mm/dev/config", some (.obj [("unique_id", "u")])⟩ =
      ([("dev", ⟨"Dev", [("unique_id", "u")], "u"⟩)],
       FlowResult.abort "discovery_error") ∧
    (async_step_manual_step [⟨some "u", none⟩] (some "dev")
        (fun v => match v with | .obj cc => .ok cc | .other _ => .error ())
        ⟨true, true, [⟨"mm/dev/config", some (.obj [("unique_id", "u")])⟩]⟩).1 =
      FlowResult.showForm "manual" [("base", "unknown")] [] [] ∧
    (async_step_discovery_step [⟨some "u", none⟩]
        [("dev", ⟨"Dev", [("unique_id", "u")], "u"⟩)] (some "dev")
        ⟨true, true, []⟩).2.1.isCreateEntry = false ∧
    (async_step_mqtt [⟨some "u", none⟩]
        [("dev", ⟨"Dev", [("unique_id", "u")], "u"⟩)]
        ⟨"mm/dev/config", some (.obj [("unique_id", "u")])⟩).2.isCreateEntry
      = false ∧
    (async_step_manual_step [⟨some "u", none⟩] (some "dev")
        (fun v => match v with | .obj cc => .ok cc | .other _ => .error ())
        ⟨true, true, [⟨"mm/dev/config", some (.obj [("unique_id", "u")])⟩]⟩).1.isCreateEntry
      = false :=
  c1_unique_id_guard [⟨some "u", none⟩]
    [("dev", ⟨"Dev", [("unique_id", "u")], "u"⟩)] ⟨true, true, []⟩
    "dev" ⟨"Dev", [("unique_id", "u")], "u"⟩ "mm/dev/config"
    [("unique_id", "u")] "dev" "dev"
    (fun v => match v with | .obj cc => .ok cc | .other _ => .error ())
    ⟨true, true, [⟨"mm/dev/config", some (.obj [("unique_id", "u")])⟩]⟩
    [("unique_id", "u")]
    (by decide) (by decide) (by decide) (by decide) (by decide) (by decide)
    rfl (by decide) (by decide)
